import Mathlib

/-
  Verification of the configuration model declared by
  non-97/multi-user-rotation-of-aws-secrets-manager.

  The repository is an AWS CDK app with three source files:
    src/lib/vpc-stack.ts       (VpcStack: the network topology)
    src/lib/database-stack.ts  (DatabaseStack: security groups, secrets,
                                Aurora cluster, rotation jobs, role, client)
    src/bin/database.ts        (the composition entry point)
  Every definition below is a shallow embedding of one of those
  declarations; the theorems check the stated properties of the model.
-/

namespace Spec2Proof

/-- The three ec2.SubnetType reachability classes used by the app. -/
inductive SubnetType where
  | PUBLIC
  | PRIVATE_WITH_NAT
  | PRIVATE_ISOLATED
deriving DecidableEq, Repr

/-- One entry of ec2.Vpc's subnetConfiguration (name, type, cidrMask). -/
structure SubnetConfigurationEntry where
  name : String
  subnetType : SubnetType
  cidrMask : Nat
deriving DecidableEq, Repr

/-- A concrete subnet produced by the Vpc construct.  `addrOffset` is the
offset, in addresses, of the subnet's block inside the parent CIDR. -/
structure Subnet where
  tierName : String
  azIndex : Nat
  subnetType : SubnetType
  cidrMask : Nat
  addrOffset : Nat
deriving DecidableEq, Repr

/-- Number of addresses in a block with the given mask length. -/
def blockSize (cidrMask : Nat) : Nat := 2 ^ (32 - cidrMask)

/-- Subnets of one subnetConfiguration entry: one per availability zone,
with consecutive address blocks starting at `start`. -/
def allocTier (e : SubnetConfigurationEntry) (azCount : Nat) (start : Nat) :
    List Subnet :=
  (List.range azCount).map fun az =>
    { tierName := e.name
      azIndex := az
      subnetType := e.subnetType
      cidrMask := e.cidrMask
      addrOffset := start + az * blockSize e.cidrMask }

/-- The CDK Vpc construct's subnet allocation: it walks the configuration
entries in order and, for each, creates one subnet per availability zone,
handing out consecutive CIDR blocks. -/
def mkSubnets : List SubnetConfigurationEntry → Nat → Nat → List Subnet
  | [], _, _ => []
  | e :: rest, azCount, start =>
      allocTier e azCount start ++
        mkSubnets rest azCount (start + azCount * blockSize e.cidrMask)

/-- The ec2.Vpc construct's properties, as configured in vpc-stack.ts. -/
structure Vpc where
  cidrBase : Nat
  cidrMask : Nat
  enableDnsHostnames : Bool
  enableDnsSupport : Bool
  natGateways : Nat
  maxAzs : Nat
  subnetConfiguration : List SubnetConfigurationEntry
deriving DecidableEq, Repr

/-- The zone count actually used: maxAzs capped by the zones the region
offers (`availableAzs`). -/
def Vpc.azCount (v : Vpc) (availableAzs : Nat) : Nat :=
  min v.maxAzs availableAzs

/-- All subnets of the Vpc, given the region's availability-zone count. -/
def Vpc.subnets (v : Vpc) (availableAzs : Nat) : List Subnet :=
  mkSubnets v.subnetConfiguration (v.azCount availableAzs) 0

/-- The SubnetSelection argument of selectSubnets. -/
structure SubnetSelection where
  onePerAz : Bool
  subnetType : SubnetType
deriving DecidableEq, Repr

/-- Keep the first subnet of each availability zone (`acc` holds the zone
indices already taken). -/
def dedupByAz (acc : List Nat) : List Subnet → List Subnet
  | [] => []
  | s :: rest =>
      if s.azIndex ∈ acc then dedupByAz acc rest
      else s :: dedupByAz (s.azIndex :: acc) rest

/-- vpc.selectSubnets: filter by subnet type, then (with onePerAz) keep
one subnet per availability zone. -/
def Vpc.selectSubnets (v : Vpc) (availableAzs : Nat) (sel : SubnetSelection) :
    List Subnet :=
  let filtered :=
    (v.subnets availableAzs).filter fun s => s.subnetType = sel.subnetType
  if sel.onePerAz then dedupByAz [] filtered else filtered

/-- The Vpc declared in src/lib/vpc-stack.ts: 10.10.0.0/24, two AZs, one
NAT gateway, three /28 tiers (Public, Private with NAT, Isolated). -/
def prodVpc : Vpc :=
  { cidrBase := 10 * 2 ^ 24 + 10 * 2 ^ 16
    cidrMask := 24
    enableDnsHostnames := true
    enableDnsSupport := true
    natGateways := 1
    maxAzs := 2
    subnetConfiguration :=
      [ { name := "Public", subnetType := .PUBLIC, cidrMask := 28 },
        { name := "Private", subnetType := .PRIVATE_WITH_NAT, cidrMask := 28 },
        { name := "Isolate", subnetType := .PRIVATE_ISOLATED, cidrMask := 28 } ] }

/-- A security-group rule source: another security group's id, or any
IPv4 address. -/
inductive Peer where
  | securityGroupId (id : String)
  | anyIpv4
deriving DecidableEq, Repr

/-- One ingress rule of a security group (TCP, single port). -/
structure IngressRule where
  peer : Peer
  port : Nat
  ruleDescription : String
deriving DecidableEq, Repr

/-- An ec2.SecurityGroup with the ingress rules added to it. -/
structure SecurityGroup where
  constructId : String
  securityGroupName : String
  sgDescription : String
  allowAllOutbound : Bool
  ingressRules : List IngressRule
deriving DecidableEq, Repr

/-- The identity by which another group's rule references this group. -/
def SecurityGroup.securityGroupId (sg : SecurityGroup) : String :=
  sg.constructId

/-- Security group for DB clients (database-stack.ts, DbClientSg). -/
def dbClientSg : SecurityGroup :=
  { constructId := "DbClientSg"
    securityGroupName := "prd-db-client-sg"
    sgDescription := ""
    allowAllOutbound := true
    ingressRules := [] }

/-- Security group for the rotation Lambda functions
(database-stack.ts, RotateSecretsLambdaFunctionSg). -/
def rotateSecretsLambdaFunctionSg : SecurityGroup :=
  { constructId := "RotateSecretsLambdaFunctionSg"
    securityGroupName := "prd-rotate-secrets-lambda-sg"
    sgDescription := ""
    allowAllOutbound := true
    ingressRules := [] }

/-- Security group for the DB (database-stack.ts, DbSg), after the two
addIngressRule calls. -/
def dbSg : SecurityGroup :=
  { constructId := "DbSg"
    securityGroupName := "prd-db-sg"
    sgDescription := ""
    allowAllOutbound := true
    ingressRules :=
      [ { peer := .securityGroupId rotateSecretsLambdaFunctionSg.securityGroupId
          port := 5432
          ruleDescription := "Allow DB access from Lambda Functions that rotate Secrets" },
        { peer := .securityGroupId dbClientSg.securityGroupId
          port := 5432
          ruleDescription := "Allow DB access from DB Client" } ] }

/-- The characters excluded from generated DB passwords
(database-stack.ts line 23, the string ":@/\" '"): colon, at-sign,
slash, double-quote, space, single-quote (code 39). -/
def EXCLUDE_CHARACTERS : List Char :=
  [':', '@', '/', '"', ' ', Char.ofNat 39]

/-- A secretsmanager generateSecretString policy. -/
structure GenerateSecretString where
  excludeCharacters : List Char
  generateStringKey : String
  passwordLength : Nat
  requireEachIncludedType : Bool
  secretStringTemplate : String
deriving DecidableEq, Repr

/-- A secret's value: generated under a policy, or fixed plaintext. -/
inductive SecretValue where
  | generated (policy : GenerateSecretString)
  | plaintext (value : String)
deriving DecidableEq, Repr

/-- A secretsmanager.Secret declaration. -/
structure Secret where
  constructId : String
  secretName : String
  value : SecretValue
deriving DecidableEq, Repr

/-- The admin secret's generation policy (database-stack.ts lines
67-73). -/
def dbAdminSecretGenerate : GenerateSecretString :=
  { excludeCharacters := EXCLUDE_CHARACTERS
    generateStringKey := "password"
    passwordLength := 32
    requireEachIncludedType := true
    secretStringTemplate := "\x7b\"username\": \"postgresAdmin\"\x7d" }

/-- The DB admin user's secret (database-stack.ts, DbAdminSecret). -/
def dbAdminSecret : Secret :=
  { constructId := "DbAdminSecret"
    secretName := "prd-db-cluster/AdminLoginInfo"
    value := .generated dbAdminSecretGenerate }

/-- The rotation user's secret (database-stack.ts,
DbRotationPasswordUserSecret): a fixed plaintext bootstrap value. -/
def dbRotationPasswordUserSecret : Secret :=
  { constructId := "DbRotationPasswordUserSecret"
    secretName := "prd-db-cluster/rotationPasswordUserLoginInfo"
    value := .plaintext
      "\x7b\"username\": \"rotationPasswordUser\",\"password\": \"rotationPasswordUser_password\"\x7d" }

/-- ASCII uppercase letter. -/
def isUppercaseChar (c : Char) : Bool := 65 ≤ c.toNat && c.toNat ≤ 90

/-- ASCII lowercase letter. -/
def isLowercaseChar (c : Char) : Bool := 97 ≤ c.toNat && c.toNat ≤ 122

/-- ASCII digit. -/
def isDigitChar (c : Char) : Bool := 48 ≤ c.toNat && c.toNat ≤ 57

/-- ASCII punctuation, the secret-management service's fourth character
class (codes 33-47, 58-64, 91-96, 123-126). -/
def isPunctuationChar (c : Char) : Bool :=
  (33 ≤ c.toNat && c.toNat ≤ 47) || (58 ≤ c.toNat && c.toNat ≤ 64) ||
    (91 ≤ c.toNat && c.toNat ≤ 96) || (123 ≤ c.toNat && c.toNat ≤ 126)

/-- Modelled from the spec: the secret-management service's password
generator (external to the repository).  A value generated under a
policy has exactly the requested length, contains no excluded
character, and, when every included type is required, contains at least
one uppercase letter, one lowercase letter, one digit and one
punctuation character. -/
def GeneratedUnder (p : GenerateSecretString) (s : String) : Prop :=
  s.length = p.passwordLength ∧
  (∀ c ∈ s.data, c ∉ p.excludeCharacters) ∧
  (p.requireEachIncludedType = true →
    (∃ c ∈ s.data, isUppercaseChar c) ∧
    (∃ c ∈ s.data, isLowercaseChar c) ∧
    (∃ c ∈ s.data, isDigitChar c) ∧
    (∃ c ∈ s.data, isPunctuationChar c))

instance (p : GenerateSecretString) (s : String) :
    Decidable (GeneratedUnder p s) := by
  unfold GeneratedUnder; infer_instance

/-- An rds.ParameterGroup declaration. -/
structure ParameterGroup where
  constructId : String
  engineVersion : String
  pgDescription : String
  parameters : List (String × String)
deriving DecidableEq, Repr

/-- The cluster parameter group (database-stack.ts,
DbClusterParameterGroup). -/
def dbClusterParameterGroup : ParameterGroup :=
  { constructId := "DbClusterParameterGroup"
    engineVersion := "aurora-postgresql13.4"
    pgDescription := "aurora-postgresql13"
    parameters :=
      [ ("pgaudit.log", "all"),
        ("pgaudit.role", "rds_pgaudit"),
        ("shared_preload_libraries", "pgaudit"),
        ("timezone", "Asia/Tokyo") ] }

/-- The instance parameter group (database-stack.ts, DbParameterGroup). -/
def dbParameterGroup : ParameterGroup :=
  { constructId := "DbParameterGroup"
    engineVersion := "aurora-postgresql13.4"
    pgDescription := "aurora-postgresql13"
    parameters := [] }

/-- An rds.SubnetGroup declaration. -/
structure SubnetGroup where
  subnetGroupName : String
  sgrDescription : String
  vpcSubnets : List Subnet
deriving DecidableEq, Repr

/-- The cluster's subnet group (database-stack.ts, SubnetGroup): one
isolated subnet per availability zone of the production Vpc. -/
def subnetGroup (availableAzs : Nat) : SubnetGroup :=
  { subnetGroupName := "SubnetGroup"
    sgrDescription := "description"
    vpcSubnets :=
      prodVpc.selectSubnets availableAzs
        { onePerAz := true, subnetType := .PRIVATE_ISOLATED } }

/-- The rds.DatabaseCluster declaration (the fields the properties
mention).  Aurora PostgreSQL listens on port 5432. -/
structure DatabaseCluster where
  clusterIdentifier : String
  engineVersion : String
  port : Nat
  instances : Nat
  credentialsSecret : String
  defaultDatabaseName : String
  deletionProtection : Bool
  storageEncrypted : Bool
  backupRetentionDays : Nat
  securityGroups : List String
  clusterSubnetGroup : SubnetGroup
deriving DecidableEq, Repr

/-- The DB cluster (database-stack.ts, DbCluster). -/
def dbCluster (availableAzs : Nat) : DatabaseCluster :=
  { clusterIdentifier := "prd-db-cluster"
    engineVersion := "aurora-postgresql13.4"
    port := 5432
    instances := 1
    credentialsSecret := dbAdminSecret.constructId
    defaultDatabaseName := "testDB"
    deletionProtection := true
    storageEncrypted := true
    backupRetentionDays := 7
    securityGroups := [dbSg.securityGroupId]
    clusterSubnetGroup := subnetGroup availableAzs }

/-- The two secretsmanager.SecretRotationApplication values used. -/
inductive RotationApp where
  | POSTGRES_ROTATION_MULTI_USER
  | POSTGRES_ROTATION_SINGLE_USER
deriving DecidableEq, Repr

/-- A secretsmanager.SecretRotation declaration. -/
structure SecretRotation where
  constructId : String
  application : RotationApp
  secret : String
  target : String
  automaticallyAfterDays : Nat
  excludeCharacters : List Char
  masterSecret : Option String
  securityGroup : String
  vpcSubnets : List Subnet
deriving DecidableEq, Repr

/-- Multi-user rotation of the admin secret (database-stack.ts,
DbAdminSecretRotationMultiUser). -/
def dbAdminSecretRotationMultiUser (availableAzs : Nat) : SecretRotation :=
  { constructId := "DbAdminSecretRotationMultiUser"
    application := .POSTGRES_ROTATION_MULTI_USER
    secret := dbAdminSecret.constructId
    target := (dbCluster availableAzs).clusterIdentifier
    automaticallyAfterDays := 3
    excludeCharacters := EXCLUDE_CHARACTERS
    masterSecret := some dbRotationPasswordUserSecret.constructId
    securityGroup := rotateSecretsLambdaFunctionSg.securityGroupId
    vpcSubnets :=
      prodVpc.selectSubnets availableAzs
        { onePerAz := false, subnetType := .PRIVATE_WITH_NAT } }

/-- Single-user rotation of the rotation user's own secret
(database-stack.ts, DbRotationPasswordUserSecretRotationSingleUser). -/
def dbRotationPasswordUserSecretRotationSingleUser
    (availableAzs : Nat) : SecretRotation :=
  { constructId := "DbRotationPasswordUserSecretRotationSingleUser"
    application := .POSTGRES_ROTATION_SINGLE_USER
    secret := dbRotationPasswordUserSecret.constructId
    target := (dbCluster availableAzs).clusterIdentifier
    automaticallyAfterDays := 3
    excludeCharacters := EXCLUDE_CHARACTERS
    masterSecret := none
    securityGroup := rotateSecretsLambdaFunctionSg.securityGroupId
    vpcSubnets :=
      prodVpc.selectSubnets availableAzs
        { onePerAz := false, subnetType := .PRIVATE_WITH_NAT } }

/-- The rotation jobs declared by the stack, in declaration order. -/
def rotationJobs (availableAzs : Nat) : List SecretRotation :=
  [ dbAdminSecretRotationMultiUser availableAzs,
    dbRotationPasswordUserSecretRotationSingleUser availableAzs ]

/-- The DB-client IAM role (database-stack.ts, DbClientIamRole). -/
structure IamRole where
  assumedBy : String
  managedPolicyNames : List String
  secretReadResources : List String
deriving DecidableEq, Repr

/-- The role attached to the client instance. -/
def dbClientIamRole : IamRole :=
  { assumedBy := "ec2.amazonaws.com"
    managedPolicyNames := ["AmazonSSMManagedInstanceCore"]
    secretReadResources :=
      [dbAdminSecret.constructId, dbRotationPasswordUserSecret.constructId] }

/-- The DB-client EC2 instance (database-stack.ts, DbClient). -/
structure Ec2Instance where
  instanceType : String
  volumeSizeGib : Nat
  volumeEncrypted : Bool
  roleAssumedBy : String
  securityGroup : String
  vpcSubnets : List Subnet
  userData : String
deriving DecidableEq, Repr

/-- The client instance, parameterised by the user-data script text read
from src/ec2/user_data_amazon_linux2.sh. -/
def dbClient (availableAzs : Nat) (userData : String) : Ec2Instance :=
  { instanceType := "t3.micro"
    volumeSizeGib := 8
    volumeEncrypted := true
    roleAssumedBy := dbClientIamRole.assumedBy
    securityGroup := dbClientSg.securityGroupId
    vpcSubnets :=
      prodVpc.selectSubnets availableAzs
        { onePerAz := false, subnetType := .PRIVATE_WITH_NAT }
    userData := userData }

/-- The VpcStack as instantiated in src/bin/database.ts. -/
structure VpcStackModel where
  vpc : Vpc
  terminationProtection : Bool
  tags : List (String × String)
deriving DecidableEq, Repr

/-- The DatabaseStack as instantiated in src/bin/database.ts. -/
structure DatabaseStackModel where
  clientSg : SecurityGroup
  lambdaSg : SecurityGroup
  databaseSg : SecurityGroup
  adminSecret : Secret
  rotationUserSecret : Secret
  clusterParameterGroup : ParameterGroup
  instanceParameterGroup : ParameterGroup
  cluster : DatabaseCluster
  rotations : List SecretRotation
  clientRole : IamRole
  clientInstance : Ec2Instance
  terminationProtection : Bool
  tags : List (String × String)
deriving DecidableEq, Repr

/-- The whole CDK app. -/
structure AppModel where
  vpcStack : VpcStackModel
  databaseStack : DatabaseStackModel
deriving DecidableEq, Repr

/-- The composition entry point (src/bin/database.ts): instantiate the
VpcStack, then the DatabaseStack on its vpc, with termination
protection and the Environment=Production tag on both.  Inputs are the
region's availability-zone count and the user-data script text. -/
def buildApp (availableAzs : Nat) (userData : String) : AppModel :=
  { vpcStack :=
      { vpc := prodVpc
        terminationProtection := true
        tags := [("Environment", "Production")] }
    databaseStack :=
      { clientSg := dbClientSg
        lambdaSg := rotateSecretsLambdaFunctionSg
        databaseSg := dbSg
        adminSecret := dbAdminSecret
        rotationUserSecret := dbRotationPasswordUserSecret
        clusterParameterGroup := dbClusterParameterGroup
        instanceParameterGroup := dbParameterGroup
        cluster := dbCluster availableAzs
        rotations := rotationJobs availableAzs
        clientRole := dbClientIamRole
        clientInstance := dbClient availableAzs userData
        terminationProtection := true
        tags := [("Environment", "Production")] } }

/-- Two subnets occupy disjoint address blocks. -/
def Subnet.blockDisjoint (a b : Subnet) : Prop :=
  a.addrOffset + blockSize a.cidrMask ≤ b.addrOffset ∨
  b.addrOffset + blockSize b.cidrMask ≤ a.addrOffset

instance : DecidableRel Subnet.blockDisjoint := fun a b => by
  unfold Subnet.blockDisjoint; infer_instance

/-- A sample 32-character value satisfying the admin secret's
generation policy. -/
def pwSample : String := "Aa0!Aa0!Aa0!Aa0!Aa0!Aa0!Aa0!Aa0!"

/- ------------------------------------------------------------------ -/
/- Helper lemmas                                                      -/
/- ------------------------------------------------------------------ -/

/-- Keeping one subnet per availability zone only drops elements. -/
theorem mem_of_mem_dedupByAz {s : Subnet} :
    ∀ (acc : List Nat) (l : List Subnet), s ∈ dedupByAz acc l → s ∈ l := by
  intro acc l
  induction l generalizing acc with
  | nil => intro h; exact absurd h (by simp [dedupByAz])
  | cons t rest ih =>
      intro h
      unfold dedupByAz at h
      by_cases hc : t.azIndex ∈ acc
      · simp only [if_pos hc] at h
        exact List.mem_cons_of_mem t (ih acc h)
      · simp only [if_neg hc] at h
        rcases List.mem_cons.1 h with h1 | h2
        · exact h1 ▸ List.mem_cons_self t rest
        · exact List.mem_cons_of_mem t (ih _ h2)

/-- Every subnet returned by selectSubnets has the requested type. -/
theorem selectSubnets_type (v : Vpc) (n : Nat) (sel : SubnetSelection)
    {s : Subnet} (hs : s ∈ v.selectSubnets n sel) :
    s.subnetType = sel.subnetType := by
  unfold Vpc.selectSubnets at hs
  split at hs
  · have := mem_of_mem_dedupByAz [] _ hs
    have h2 := List.of_mem_filter this
    exact of_decide_eq_true h2
  · have h2 := List.of_mem_filter hs
    exact of_decide_eq_true h2

/- ------------------------------------------------------------------ -/
/- Claim theorems                                                     -/
/- ------------------------------------------------------------------ -/

/-- Claim C1: whatever availability-zone count the region offers, every
subnet selected into the database cluster's subnet group has the
fully-isolated reachability class (PRIVATE_ISOLATED), never public or
outbound-only. -/
theorem C1_subnet_group_all_isolated (n : Nat) (s : Subnet)
    (hs : s ∈ (subnetGroup n).vpcSubnets) :
    s.subnetType = .PRIVATE_ISOLATED :=
  selectSubnets_type prodVpc n
    { onePerAz := true, subnetType := .PRIVATE_ISOLATED } hs

/-- Witness for C1 at two availability zones: the zone-0 isolated
subnet is in the subnet group and is fully isolated. -/
theorem C1_subnet_group_all_isolated_witness :
    (⟨"Isolate", 0, .PRIVATE_ISOLATED, 28, 64⟩ : Subnet) ∈
        (subnetGroup 2).vpcSubnets ∧
      (⟨"Isolate", 0, .PRIVATE_ISOLATED, 28, 64⟩ : Subnet).subnetType =
        .PRIVATE_ISOLATED :=
  ⟨by decide, C1_subnet_group_all_isolated 2 _ (by decide)⟩

/-- Claim C2: the DB security group has exactly two ingress rules, one
from the DB-client group and one from the rotation-Lambda group, both
on port 5432, and none of its ingress rules has an unrestricted
(any-IPv4) peer. -/
theorem C2_db_sg_ingress_exactly_two :
    dbSg.ingressRules.length = 2 ∧
    (∃ r ∈ dbSg.ingressRules,
      r.peer = .securityGroupId dbClientSg.securityGroupId ∧ r.port = 5432) ∧
    (∃ r ∈ dbSg.ingressRules,
      r.peer = .securityGroupId rotateSecretsLambdaFunctionSg.securityGroupId ∧
        r.port = 5432) ∧
    (∀ r ∈ dbSg.ingressRules, r.port = 5432) ∧
    (∀ r ∈ dbSg.ingressRules, r.peer ≠ .anyIpv4) := by
  decide

/-- Claim C10 (implicit): all three security groups are created with
allowAllOutbound set to true, the database's own group included. -/
theorem C10_all_security_groups_allow_all_outbound :
    dbClientSg.allowAllOutbound = true ∧
    rotateSecretsLambdaFunctionSg.allowAllOutbound = true ∧
    dbSg.allowAllOutbound = true := by
  decide

/-- Claim C3: the admin secret's generation policy has password length
32, requires every included character class, and excludes exactly
colon, at-sign, slash, double-quote, space and single-quote; hence any
value generated under it has length 32, one character of each required
class at least, and no excluded character. -/
theorem C3_admin_secret_generation_policy :
    dbAdminSecret.value = .generated dbAdminSecretGenerate ∧
    dbAdminSecretGenerate.passwordLength = 32 ∧
    dbAdminSecretGenerate.requireEachIncludedType = true ∧
    dbAdminSecretGenerate.excludeCharacters =
      [':', '@', '/', '"', ' ', Char.ofNat 39] ∧
    ∀ s, GeneratedUnder dbAdminSecretGenerate s →
      s.length = 32 ∧
      (∀ c ∈ s.data, c ∉ dbAdminSecretGenerate.excludeCharacters) ∧
      (∃ c ∈ s.data, isUppercaseChar c) ∧
      (∃ c ∈ s.data, isLowercaseChar c) ∧
      (∃ c ∈ s.data, isDigitChar c) ∧
      (∃ c ∈ s.data, isPunctuationChar c) := by
  refine ⟨rfl, rfl, rfl, rfl, ?_⟩
  intro s hs
  obtain ⟨h1, h2, h3⟩ := hs
  obtain ⟨hu, hl, hd, hp⟩ := h3 rfl
  exact ⟨h1, h2, hu, hl, hd, hp⟩

/-- Witness for C3: a concrete 32-character sample value satisfies the
policy, and the theorem then gives its length back. -/
theorem C3_admin_secret_generation_policy_witness :
    GeneratedUnder dbAdminSecretGenerate pwSample ∧ pwSample.length = 32 :=
  ⟨by decide,
    (C3_admin_secret_generation_policy.2.2.2.2 pwSample (by decide)).1⟩

/-- Claim C4: exactly two rotation jobs are declared; the multi-user
one rotates the admin secret with the rotation user's secret as master
credential, the single-user one rotates the rotation user's secret with
no master credential, and both target the DB cluster. -/
theorem C4_two_rotation_jobs (n : Nat) :
    rotationJobs n =
      [ dbAdminSecretRotationMultiUser n,
        dbRotationPasswordUserSecretRotationSingleUser n ] ∧
    (dbAdminSecretRotationMultiUser n).application =
      .POSTGRES_ROTATION_MULTI_USER ∧
    (dbAdminSecretRotationMultiUser n).secret = dbAdminSecret.constructId ∧
    (dbAdminSecretRotationMultiUser n).masterSecret =
      some dbRotationPasswordUserSecret.constructId ∧
    (dbRotationPasswordUserSecretRotationSingleUser n).application =
      .POSTGRES_ROTATION_SINGLE_USER ∧
    (dbRotationPasswordUserSecretRotationSingleUser n).secret =
      dbRotationPasswordUserSecret.constructId ∧
    (dbRotationPasswordUserSecretRotationSingleUser n).masterSecret = none ∧
    (dbAdminSecretRotationMultiUser n).target =
      (dbCluster n).clusterIdentifier ∧
    (dbRotationPasswordUserSecretRotationSingleUser n).target =
      (dbCluster n).clusterIdentifier :=
  ⟨rfl, rfl, rfl, rfl, rfl, rfl, rfl, rfl, rfl⟩

/-- Claim C5: both rotation jobs have the same rotation cadence, and it
is 3 days. -/
theorem C5_rotation_cadence_three_days (n : Nat) :
    (dbAdminSecretRotationMultiUser n).automaticallyAfterDays =
      (dbRotationPasswordUserSecretRotationSingleUser n).automaticallyAfterDays ∧
    (dbAdminSecretRotationMultiUser n).automaticallyAfterDays = 3 :=
  ⟨rfl, rfl⟩

/-- Claim C6: the deletion safeguards are all on: the cluster's
deletion protection and the termination protection of both stacks. -/
theorem C6_deletion_safeguards_enabled (n : Nat) (u : String) :
    (buildApp n u).databaseStack.cluster.deletionProtection = true ∧
    (buildApp n u).vpcStack.terminationProtection = true ∧
    (buildApp n u).databaseStack.terminationProtection = true :=
  ⟨rfl, rfl, rfl⟩

/-- Claim C7: every subnet selected for either rotation job has the
outbound-only reachability class (PRIVATE_WITH_NAT). -/
theorem C7_rotation_jobs_in_nat_tier (n : Nat) (s : Subnet) :
    (s ∈ (dbAdminSecretRotationMultiUser n).vpcSubnets →
      s.subnetType = .PRIVATE_WITH_NAT) ∧
    (s ∈ (dbRotationPasswordUserSecretRotationSingleUser n).vpcSubnets →
      s.subnetType = .PRIVATE_WITH_NAT) :=
  ⟨fun hs => selectSubnets_type prodVpc n
      { onePerAz := false, subnetType := .PRIVATE_WITH_NAT } hs,
    fun hs => selectSubnets_type prodVpc n
      { onePerAz := false, subnetType := .PRIVATE_WITH_NAT } hs⟩

/-- Witness for C7 at two availability zones: the zone-0 private
subnet is selected for both jobs and is of the outbound-only class. -/
theorem C7_rotation_jobs_in_nat_tier_witness :
    (⟨"Private", 0, .PRIVATE_WITH_NAT, 28, 32⟩ : Subnet) ∈
        (dbAdminSecretRotationMultiUser 2).vpcSubnets ∧
      (⟨"Private", 0, .PRIVATE_WITH_NAT, 28, 32⟩ : Subnet) ∈
        (dbRotationPasswordUserSecretRotationSingleUser 2).vpcSubnets ∧
      (⟨"Private", 0, .PRIVATE_WITH_NAT, 28, 32⟩ : Subnet).subnetType =
        .PRIVATE_WITH_NAT :=
  ⟨by decide, by decide,
    (C7_rotation_jobs_in_nat_tier 2 _).1 (by decide)⟩

/-- Claim C8: in any region offering at least the configured two zones,
the Vpc yields exactly 6 subnets — each of the 3 tiers once per zone —
each with a /28 mask, and the 6 /28 blocks are pairwise disjoint and
fit inside the /24 parent block. -/
theorem C8_six_disjoint_slash28_subnets (n : Nat) (hn : 2 ≤ n) :
    (prodVpc.subnets n).length = 6 ∧
    (∀ s ∈ prodVpc.subnets n, s.cidrMask = 28) ∧
    (prodVpc.subnets n).countP
      (fun s => s.subnetType = .PUBLIC && s.azIndex = 0) = 1 ∧
    (prodVpc.subnets n).countP
      (fun s => s.subnetType = .PUBLIC && s.azIndex = 1) = 1 ∧
    (prodVpc.subnets n).countP
      (fun s => s.subnetType = .PRIVATE_WITH_NAT && s.azIndex = 0) = 1 ∧
    (prodVpc.subnets n).countP
      (fun s => s.subnetType = .PRIVATE_WITH_NAT && s.azIndex = 1) = 1 ∧
    (prodVpc.subnets n).countP
      (fun s => s.subnetType = .PRIVATE_ISOLATED && s.azIndex = 0) = 1 ∧
    (prodVpc.subnets n).countP
      (fun s => s.subnetType = .PRIVATE_ISOLATED && s.azIndex = 1) = 1 ∧
    List.Pairwise Subnet.blockDisjoint (prodVpc.subnets n) ∧
    (∀ s ∈ prodVpc.subnets n,
      s.addrOffset + blockSize s.cidrMask ≤ blockSize prodVpc.cidrMask) := by
  have haz : prodVpc.azCount n = 2 := by
    have h2 : prodVpc.maxAzs = 2 := rfl
    unfold Vpc.azCount
    rw [h2]
    omega
  have h : prodVpc.subnets n = mkSubnets prodVpc.subnetConfiguration 2 0 := by
    unfold Vpc.subnets
    rw [haz]
  rw [h]
  decide

/-- Witness for C8 at exactly two zones: two is at least two and the
subnet list has six elements. -/
theorem C8_six_disjoint_slash28_subnets_witness :
    2 ≤ 2 ∧ (prodVpc.subnets 2).length = 6 :=
  ⟨by decide, (C8_six_disjoint_slash28_subnets 2 (by decide)).1⟩

/-- Claim C9: the composition entry point is deterministic: two runs on
equal inputs (zone count and user-data script) declare equal resource
models, so a re-run yields no diffs. -/
theorem C9_composition_deterministic (n₁ n₂ : Nat) (u₁ u₂ : String)
    (hn : n₁ = n₂) (hu : u₁ = u₂) :
    buildApp n₁ u₁ = buildApp n₂ u₂ := by
  rw [hn, hu]

/-- Witness for C9: two runs at two zones with the same script text
agree. -/
theorem C9_composition_deterministic_witness :
    buildApp 2 "dnf install -y postgresql" =
      buildApp 2 "dnf install -y postgresql" :=
  C9_composition_deterministic 2 2 _ _ rfl rfl

end Spec2Proof
